import Mathlib

/-!
# Verification of the lactation-curve core library

Shallow embedding of the `lactationcurve` Python package
(preprocessing, test-interval method, characteristic dispatch, fitting,
persistency formulas) together with theorems settling the specification
claims about it.

Conventions of the embedding:
* Python floats are idealized as exact rationals `ℚ`; the non-finite
  values (`nan`, `±inf`) that the normalizer must drop are modelled by
  the dedicated type `PyFloat`.
* Real-valued model formulas (which use `exp`, `log` and real powers)
  are embedded over `ℝ`.
* Values produced by external libraries (scipy optimizers, sympy
  lambdified evaluators, the remote MilkBot service) are inputs of the
  embedded functions, collected in the `Oracles` structure: the claims
  settled against the dispatch skeleton concern control flow and result
  shape, which do not depend on those numeric values.
* Python exceptions are modelled by `Except PyError`.
-/

namespace LactationCore

/-- A Python float as consumed by `validate_and_prepare_inputs`:
either a finite value or one of the non-finite values that
`np.isfinite` rejects. -/
inductive PyFloat where
  | num (q : ℚ)
  | nan
  | inf
  | ninf
deriving DecidableEq

/-- `np.isfinite` on the embedded floats. -/
def PyFloat.isFinite : PyFloat → Bool
  | .num _ => true
  | _ => false

/-- The rational carried by a finite `PyFloat` (0 for non-finite ones;
only ever used on finite values). -/
def PyFloat.val : PyFloat → ℚ
  | .num q => q
  | _ => 0

/-- The errors raised by the library (each constructor corresponds to one
`raise` site in the source; the Python code raises `ValueError`/`Exception`
with a message, the spec gives them the symbolic names used here). -/
inductive PyError where
  | lengthMismatch
  | invalidFittingMode
  | invalidBreed
  | invalidRegion
  | insufficientData
  | invalidPersistencyMethod
  | invalidLactationLength
  | invalidMilkUnit
  | invalidPriors
  | unsupportedModel
  | unknownCharacteristic
  | missingApiKey
  | unsupportedBayesianModel
  | unsupportedPersistencyModel
  | zeroDivisionError
deriving DecidableEq

/-- The Python value passed as `lactation_length`: an integer or a string
(`int(x)` is applied to non-string arguments in the source). -/
inductive LactLenArg where
  | int (n : ℤ)
  | str (s : String)
deriving DecidableEq

/-- The Python value passed as `custom_priors`: a string token or a prior
dictionary (its entries are irrelevant to the claims). -/
inductive PriorsArg where
  | pstr (s : String)
  | pdict (entries : List (String × ℚ))
deriving DecidableEq

/-- The `PreparedInputs` dataclass of
`lactationcurve/preprocessing/validate_and_standardize.py`. -/
structure PreparedInputs where
  dim : List ℚ
  milkrecordings : List ℚ
  model : Option String
  fitting : Option String
  breed : Option String
  parity : Option ℤ
  continent : Option String
  persistency_method : Option String
  lactation_length : Option LactLenArg
  milk_unit : String
  custom_priors : Option PriorsArg
deriving DecidableEq

/-- ASCII lower-casing of one character (`str.lower` on the ASCII
tokens the library compares against). -/
def lowerChar (c : Char) : Char :=
  if 'A' ≤ c ∧ c ≤ 'Z' then Char.ofNat (c.toNat + 32) else c

/-- ASCII upper-casing of one character. -/
def upperChar (c : Char) : Char :=
  if 'a' ≤ c ∧ c ≤ 'z' then Char.ofNat (c.toNat - 32) else c

/-- `str.lower()` (ASCII). -/
def pyLower (s : String) : String := ⟨s.data.map lowerChar⟩

/-- `str.upper()` (ASCII). -/
def pyUpper (s : String) : String := ⟨s.data.map upperChar⟩

/-- `str.strip()`: drop whitespace from both ends. -/
def pyStrip (s : String) : String :=
  ⟨((s.data.dropWhile Char.isWhitespace).reverse.dropWhile
      Char.isWhitespace).reverse⟩

/-- `model.strip().lower() if model else None`, combined with the final
`model or None` of the return statement (an empty normalized string
becomes `None`). -/
def normalizeModel (model : Option String) : Option String :=
  match model with
  | none => none
  | some s =>
    if s = "" then none
    else
      let t := pyLower (pyStrip s)
      if t = "" then none else some t

/-- The `fitting` check of `validate_and_prepare_inputs`. -/
def checkFitting : Option String → Except PyError (Option String)
  | none => .ok none
  | some f =>
    let f := pyLower f
    if f = "frequentist" ∨ f = "bayesian" then .ok (some f)
    else .error .invalidFittingMode

/-- The `breed` check of `validate_and_prepare_inputs`. -/
def checkBreed : Option String → Except PyError (Option String)
  | none => .ok none
  | some b =>
    let b := pyUpper b
    if b = "H" ∨ b = "J" then .ok (some b) else .error .invalidBreed

/-- The `continent` check of `validate_and_prepare_inputs`. -/
def checkContinent : Option String → Except PyError (Option String)
  | none => .ok none
  | some c =>
    let c := pyUpper c
    if c = "USA" ∨ c = "EU" then .ok (some c) else .error .invalidRegion

/-- The `persistency_method` check of `validate_and_prepare_inputs`. -/
def checkPersistencyMethod : Option String → Except PyError (Option String)
  | none => .ok none
  | some p =>
    let p := pyLower p
    if p = "derived" ∨ p = "literature" then .ok (some p)
    else .error .invalidPersistencyMethod

/-- The `lactation_length` normalization of `validate_and_prepare_inputs`:
a string must be (case-insensitively) `"max"` and is kept as given;
any other value goes through `int(...)` with no further check. -/
def checkLactationLength : Option LactLenArg → Except PyError (Option LactLenArg)
  | none => .ok none
  | some (.str s) =>
    if pyLower s = "max" then .ok (some (.str s))
    else .error .invalidLactationLength
  | some (.int n) => .ok (some (.int n))

/-- The `custom_priors` check of `validate_and_prepare_inputs`
(a string is upper-cased and must be `"CHEN"`; a dict passes through). -/
def checkCustomPriors : Option PriorsArg → Except PyError (Option PriorsArg)
  | none => .ok none
  | some (.pstr s) =>
    let s := pyUpper s
    if s = "CHEN" then .ok (some (.pstr s)) else .error .invalidPriors
  | some (.pdict d) => .ok (some (.pdict d))

/-- The finite-mask step: `mask = np.isfinite(dim) & np.isfinite(milkrecordings)`
applied to the index-aligned pairs, keeping order. -/
def cleanPairs (dim milkrecordings : List PyFloat) : List (ℚ × ℚ) :=
  ((dim.zip milkrecordings).filter
      (fun p => p.1.isFinite && p.2.isFinite)).map
    (fun p => (p.1.val, p.2.val))

/-- `validate_and_prepare_inputs` from
`lactationcurve/preprocessing/validate_and_standardize.py`, with the
checks in source order: length mismatch, model normalization, parity
coercion, fitting, breed, continent, the finite mask and the
two-point minimum, then persistency method, lactation length,
milk unit and custom priors. -/
def validate_and_prepare_inputs (dim milkrecordings : List PyFloat)
    (model fitting breed : Option String) (parity : Option ℤ)
    (continent persistency_method : Option String)
    (lactation_length : Option LactLenArg) (milk_unit : String)
    (custom_priors : Option PriorsArg) : Except PyError PreparedInputs :=
  if dim.length ≠ milkrecordings.length then .error .lengthMismatch
  else
    match checkFitting fitting with
    | .error e => .error e
    | .ok fitting =>
      match checkBreed breed with
      | .error e => .error e
      | .ok breed =>
        match checkContinent continent with
        | .error e => .error e
        | .ok continent =>
          if (cleanPairs dim milkrecordings).length < 2 then
            .error .insufficientData
          else
            match checkPersistencyMethod persistency_method with
            | .error e => .error e
            | .ok persistency_method =>
              match checkLactationLength lactation_length with
              | .error e => .error e
              | .ok lactation_length =>
                if ¬ (milk_unit = "kg" ∨ milk_unit = "lb") then
                  .error .invalidMilkUnit
                else
                  match checkCustomPriors custom_priors with
                  | .error e => .error e
                  | .ok custom_priors =>
                    .ok { dim := (cleanPairs dim milkrecordings).map Prod.fst
                          milkrecordings :=
                            (cleanPairs dim milkrecordings).map Prod.snd
                          model := normalizeModel model
                          fitting := fitting
                          breed := breed
                          parity := parity
                          continent := continent
                          persistency_method := persistency_method
                          lactation_length := lactation_length
                          milk_unit := milk_unit
                          custom_priors := custom_priors }

/-! ## Test Interval Method

Embedding of `characteristics/test_interval_method.py`. A table row
carries an identifier (modelled as a natural number), a day in milk and
a milk yield. Column-name aliasing is presentation-level and not part
of the embedded computation. -/

/-- One record of the input table of `test_interval_method`. -/
structure TestRow where
  testId : ℕ
  daysInMilk : ℚ
  milkingYield : ℚ
deriving DecidableEq

instance : Inhabited TestRow := ⟨⟨0, 0, 0⟩⟩

/-- Comparison used by `sort_values(by=dim_col, ascending=True)`. -/
def rowLE (r s : TestRow) : Prop := r.daysInMilk ≤ s.daysInMilk

instance : DecidableRel rowLE := fun r s =>
  inferInstanceAs (Decidable (r.daysInMilk ≤ s.daysInMilk))

instance : IsTotal TestRow rowLE := ⟨fun r s => le_total r.daysInMilk s.daysInMilk⟩

instance : IsTrans TestRow rowLE := ⟨fun _ _ _ h h2 => le_trans h h2⟩

/-- `df = df[df[dim_col] <= 305]`. -/
def filter305 (rows : List TestRow) : List TestRow :=
  rows.filter (fun r => decide (r.daysInMilk ≤ 305))

/-- `df[df[id_col] == lactation]`. -/
def groupRows (rows : List TestRow) (g : ℕ) : List TestRow :=
  rows.filter (fun r => decide (r.testId = g))

/-- Helper for `df[id_col].unique()`: first-occurrence order, skipping
identifiers already seen. -/
def uniqueIdsAux (seen : List ℕ) : List TestRow → List ℕ
  | [] => []
  | r :: rest =>
    if r.testId ∈ seen then uniqueIdsAux seen rest
    else r.testId :: uniqueIdsAux (r.testId :: seen) rest

/-- `df[id_col].unique()` (pandas keeps first-occurrence order). -/
def uniqueIds (rows : List TestRow) : List ℕ := uniqueIdsAux [] rows

/-- `lactation_df.sort_values(by=dim_col, ascending=True)`. -/
def sortByDay (rows : List TestRow) : List TestRow :=
  rows.insertionSort rowLE

/-- The intermediate trapezoidal contributions: per row,
`width = diff().shift(-1)` and `avg_yield = (y + y.shift(-1)) / 2`,
the products summed (the last row, whose shifted values are `NaN`,
contributes nothing). -/
def trapezoidSum : List TestRow → ℚ
  | r :: s :: rest =>
    (s.daysInMilk - r.daysInMilk) * ((r.milkingYield + s.milkingYield) / 2)
      + trapezoidSum (s :: rest)
  | _ => 0

/-- `MY0 + total_intermediate + MYend` for one sorted lactation group. -/
def totalYield (sorted : List TestRow) : ℚ :=
  match sorted with
  | [] => 0
  | r :: rest =>
    let lastRow := rest.getLastD r
    r.daysInMilk * r.milkingYield + trapezoidSum (r :: rest)
      + (306 - lastRow.daysInMilk) * lastRow.milkingYield

/-- `test_interval_method`: filter to day ≤ 305, iterate over the distinct
identifiers, sort each group by day, skip groups shorter than 2, and
collect `(identifier, total 305-day yield)` rows. -/
def test_interval_method (rows : List TestRow) : List (ℕ × ℚ) :=
  let df := filter305 rows
  (uniqueIds df).filterMap (fun g =>
    let grp := sortByDay (groupRows df g)
    if grp.length < 2 then none
    else some (g, totalYield grp))

/-- The spec formula for the intermediate contribution, written
independently of the column mechanics: the sum over consecutive sorted
pairs of `(day2 - day1) * (yield1 + yield2) / 2`. -/
def pairTrapezoids (l : List TestRow) : ℚ :=
  ((l.zip l.tail).map (fun p =>
    (p.2.daysInMilk - p.1.daysInMilk)
      * ((p.1.milkingYield + p.2.milkingYield) / 2))).sum

/-! ## Characteristic dispatch

Embedding of `calculate_characteristic` from
`characteristics/lactation_curve_characteristics.py`. The numeric leaf
values obtained from external libraries (scipy fits, sympy lambdified
evaluators, the remote MilkBot service, and the transcendental value of
the Wood literature formula, treated over `ℝ` separately below) are
inputs, bundled in `Oracles`; the dispatch, validation gates and result
shape are embedded from the source. -/

/-- The four names in `characteristic_options`. -/
def characteristic_options : List String :=
  ["time_to_peak", "peak_yield", "cumulative_milk_yield", "persistency"]

/-- The five models accepted by `calculate_characteristic` (and by the
frequentist path of `fit_lactation_curve`). -/
def supported_models : List String :=
  ["milkbot", "wood", "wilmink", "ali_schaeffer", "fischer"]

/-- Python float division: raises `ZeroDivisionError` on a zero divisor. -/
def pyDiv (x y : ℚ) : Except PyError ℚ :=
  if y = 0 then .error .zeroDivisionError else .ok (x / y)

/-- `persistency_milkbot(d) = 0.693 / d` (Ehrlich, 2013). -/
def persistency_milkbot (d : ℚ) : Except PyError ℚ :=
  pyDiv (693 / 1000) d

/-- External numeric values consumed by `calculate_characteristic`:
everything a run obtains from scipy, sympy evaluators or the MilkBot
web service. `symValue c = none` models a `None`/non-finite evaluator
result for characteristic `c` (which triggers the numeric fallback). -/
structure Oracles where
  fittedParams : List ℚ
  symValue : String → Option ℚ
  numFallback : String → ℚ
  persistencyDerived : ℚ
  bayesParams : List ℚ
  bayesSymValue : String → ℚ
  bayesPersistencyDerived : ℚ
  woodLiteratureValue : ℚ

/-- The value returned by `calculate_characteristic`: the source only ever
returns `float(value)`; the dictionary shape exists in the value space
(it is what `lactation_curve_characteristic_function` produces for an
omitted characteristic) but is never returned by this function. -/
inductive CalcValue where
  | val (x : ℚ)
  | allOf (entries : List (String × Option ℚ))
deriving DecidableEq

instance {ε α : Type} [DecidableEq ε] [DecidableEq α] :
    DecidableEq (Except ε α) := fun x y =>
  match x, y with
  | .ok a, .ok b => decidable_of_iff (a = b) (by simp)
  | .error a, .error b => decidable_of_iff (a = b) (by simp)
  | .ok _, .error _ => isFalse (by simp)
  | .error _, .ok _ => isFalse (by simp)

/-- `true` exactly on a successful result that is a single float. -/
def returnsFloat : Except PyError CalcValue → Bool
  | .ok (.val _) => true
  | _ => false

/-- `true` exactly on a successful result that is the all-characteristics
dictionary. -/
def returnsDict : Except PyError CalcValue → Bool
  | .ok (.allOf _) => true
  | _ => false

/-- Membership test for an optional string in a list, as used by
`if model not in [...]` (a `None` model is not in the list). -/
def optMem (x : Option String) (l : List String) : Bool :=
  match x with
  | some s => l.contains s
  | none => false

/-- `calculate_characteristic`: validate inputs, gate on the five
supported models, gate on the four characteristic names, then follow
the frequentist or Bayesian branch; every successful path returns a
single float. In Python the `characteristic` parameter defaults to
`"cumulative_milk_yield"`, so an omitted argument means
`some "cumulative_milk_yield"` here; `none` models an explicit `None`. -/
def calculate_characteristic (O : Oracles) (dim milkrecordings : List PyFloat)
    (model : String) (characteristic : Option String) (fitting : String)
    (key : Option String) (parity : ℤ) (breed : String) (continent : String)
    (custom_priors : Option PriorsArg) (milk_unit : String)
    (persistency_method : String) (lactation_length : Option LactLenArg) :
    Except PyError CalcValue :=
  match validate_and_prepare_inputs dim milkrecordings (some model)
      (some fitting) (some breed) (some parity) (some continent)
      (some persistency_method) lactation_length milk_unit custom_priors with
  | .error e => .error e
  | .ok inputs =>
    if ¬ optMem inputs.model supported_models then .error .unsupportedModel
    else
      match characteristic with
      | none => .error .unknownCharacteristic
      | some c =>
        if ¬ characteristic_options.contains c then .error .unknownCharacteristic
        else if inputs.fitting = some "frequentist" then
          if c ≠ "persistency" then
            match O.symValue c with
            | some v =>
              if c = "time_to_peak" ∧ v ≤ 0 then .ok (.val (O.numFallback c))
              else .ok (.val v)
            | none => .ok (.val (O.numFallback c))
          else if inputs.persistency_method = some "derived" then
            .ok (.val O.persistencyDerived)
          else
            match inputs.model with
            | some "wood" => .ok (.val O.woodLiteratureValue)
            | some "milkbot" =>
              match persistency_milkbot (O.fittedParams.getD 3 0) with
              | .error e => .error e
              | .ok v => .ok (.val v)
            | _ => .error .unsupportedPersistencyModel
        else
          if inputs.model = some "milkbot" then
            match key with
            | none => .error .missingApiKey
            | some _ =>
              if c ≠ "persistency" then .ok (.val (O.bayesSymValue c))
              else if inputs.persistency_method = some "derived" then
                .ok (.val O.bayesPersistencyDerived)
              else
                match persistency_milkbot (O.bayesParams.getD 3 0) with
                | .error e => .error e
                | .ok v => .ok (.val v)
          else .error .unsupportedBayesianModel

/-! ## Model library and curve predictor

Embedding over `ℝ` of the model functions of
`fitting/lactation_curve_fitting.py` (current package variant), of the
legacy variant in `src/lactationcurve/fitting/lactation_curve_fitting.py`
where it differs (Ali-Schaeffer scaled by 340), and of the symbolic
Ali-Schaeffer expression built in
`characteristics/lactation_curve_characteristics.py`. -/

noncomputable section

/-- `wood_model(t, a, b, c) = a * t**b * exp(-c*t)` (`t**b` is a real
power). -/
def wood_model (t a b c : ℝ) : ℝ := a * t ^ b * Real.exp (-c * t)

/-- `milkbot_model(t, a, b, c, d) = a * (1 - exp((c-t)/b)/2) * exp(-d*t)`. -/
def milkbot_model (t a b c d : ℝ) : ℝ :=
  a * (1 - Real.exp ((c - t) / b) / 2) * Real.exp (-d * t)

/-- `wilmink_model(t, a, b, c, k) = a + b*t + c*exp(k*t)`. -/
def wilmink_model (t a b c k : ℝ) : ℝ := a + b * t + c * Real.exp (k * t)

/-- `ali_schaeffer_model` of the current package variant:
`t_scaled = t/305`, `log_term = log(305/t)`, value
`a + b*t_scaled + c*t_scaled**2 + d*log_term + k*log_term**2`. -/
def ali_schaeffer_model (t a b c d k : ℝ) : ℝ :=
  a + b * (t / 305) + c * (t / 305) ^ 2 + d * Real.log (305 / t)
    + k * Real.log (305 / t) ^ 2

/-- `ali_schaeffer_model` of the legacy `src/` variant: identical shape
but scaled by 340 (`t_scaled = t/340`, `log_term = log(340/t)`). -/
def ali_schaeffer_model_340 (t a b c d k : ℝ) : ℝ :=
  a + b * (t / 340) + c * (t / 340) ^ 2 + d * Real.log (340 / t)
    + k * Real.log (340 / t) ^ 2

/-- The Ali-Schaeffer expression built by
`lactation_curve_characteristic_function`:
`a + b*(t/340) + c*(t/340)**2 + d*log(t/340) + k*log((340/t)**2)`.
Note the last two terms: the `d` term takes the log of `t/340` (not of
`340/t`) and the `k` term is the log of a square, not the square of a
log. -/
def ali_schaeffer_char_expr (t a b c d k : ℝ) : ℝ :=
  a + b * (t / 340) + c * (t / 340) ^ 2 + d * Real.log (t / 340)
    + k * Real.log ((340 / t) ^ 2)

/-- `fischer_model(t, a, b, c) = a - b*t - a*exp(-c*t)`. -/
def fischer_model (t a b c : ℝ) : ℝ := a - b * t - a * Real.exp (-c * t)

/-- `np.arange(1, max(dim) + 1)` when the maximum observed day exceeds
305, otherwise `np.arange(1, 306)`: the integer days `1, ..., bound`. -/
def t_range (maxDim : ℕ) : List ℕ :=
  if maxDim > 305 then List.range' 1 maxDim else List.range' 1 305

/-- Dispatch from a model name and a fitted-parameter list (alphabetical
parameter order, as returned by `get_lc_parameters`) to the model
function; matches the per-model branches of `fit_lactation_curve`. -/
def model_function (model : String) (p : List ℝ) (t : ℝ) : ℝ :=
  match model with
  | "wood" => wood_model t (p.getD 0 0) (p.getD 1 0) (p.getD 2 0)
  | "wilmink" => wilmink_model t (p.getD 0 0) (p.getD 1 0) (p.getD 2 0) (p.getD 3 0)
  | "ali_schaeffer" =>
    ali_schaeffer_model t (p.getD 0 0) (p.getD 1 0) (p.getD 2 0) (p.getD 3 0)
      (p.getD 4 0)
  | "fischer" => fischer_model t (p.getD 0 0) (p.getD 1 0) (p.getD 2 0)
  | "milkbot" =>
    milkbot_model t (p.getD 0 0) (p.getD 1 0) (p.getD 2 0) (p.getD 3 0)
  | _ => 0

/-- The frequentist path of `fit_lactation_curve`: obtain the fitted
parameters (from the scipy optimizers, abstracted as `getParams`) and
apply the model function over the integer day range
`1 .. max(305, max observed day)`; an unsupported model raises. -/
def fit_lactation_curve (getParams : String → List ℝ) (model : String)
    (maxDim : ℕ) : Except PyError (List ℝ) :=
  if supported_models.contains model then
    .ok ((t_range maxDim).map
      (fun t : ℕ => model_function model (getParams model) (t : ℝ)))
  else .error .unsupportedModel

/-- `persistency_wood(b, c) = float(-(b + 1) * ln(c))` (Wood et al.). -/
def persistency_wood (b c : ℝ) : ℝ := -(b + 1) * Real.log c

/-! ## Symbolic derivation for the Wood model

Semantics of what `lactation_curve_characteristic_function` derives for
`model="wood"`: the source differentiates `a*t**b*exp(-c*t)` with
respect to `t` and solves for zero (over positive reals the unique
root is `t = b/c`), substitutes the peak time for the peak yield,
integrates from 0 to 305 for the cumulative yield, and builds the
persistency expression `(f(T) - f(tpeak)) / (T - tpeak)` with
`T = lactation_length`. -/

/-- The peak time sympy derives for the Wood model: the positive root
`t = b/c` of `d/dt (a*t**b*exp(-c*t)) = 0`. -/
def wood_time_to_peak (a b c : ℝ) : ℝ := b / c

/-- The Wood peak-yield expression: the model evaluated at the peak
time. -/
def wood_peak_yield_expr (a b c : ℝ) : ℝ :=
  wood_model (wood_time_to_peak a b c) a b c

/-- The Wood cumulative-yield expression: the definite integral of the
model from 0 to 305 (the bound 305 is hard-coded in the source,
independently of `lactation_length`). -/
def wood_cumulative_expr (a b c : ℝ) : ℝ :=
  ∫ t in (0 : ℝ)..305, wood_model t a b c

/-- The Wood persistency expression derived by the source:
`(f(T) - f(tpeak)) / (T - tpeak)` where `T` is the `lactation_length`
argument. -/
def wood_persistency_expr (T a b c : ℝ) : ℝ :=
  (wood_model T a b c - wood_model (wood_time_to_peak a b c) a b c)
    / (T - wood_time_to_peak a b c)

/-- The evaluator `lactation_curve_characteristic_function` derives for
the Wood model, as a function of the requested characteristic and the
`lactation_length` argument (the cache of the source stores this under
the key `(model, characteristic)`, forgetting `lactation_length`). -/
def wood_characteristic_evaluator (characteristic : String)
    (lactation_length : ℝ) (a b c : ℝ) : ℝ :=
  match characteristic with
  | "time_to_peak" => wood_time_to_peak a b c
  | "peak_yield" => wood_peak_yield_expr a b c
  | "cumulative_milk_yield" => wood_cumulative_expr a b c
  | "persistency" => wood_persistency_expr lactation_length a b c
  | _ => 0

end

/-! ## Lemmas about the Test Interval Method -/

theorem trapezoidSum_eq_pairTrapezoids :
    ∀ l : List TestRow, trapezoidSum l = pairTrapezoids l
  | [] => by simp [trapezoidSum, pairTrapezoids]
  | [r] => by simp [trapezoidSum, pairTrapezoids]
  | r :: s :: rest => by
    rw [trapezoidSum, trapezoidSum_eq_pairTrapezoids (s :: rest)]
    simp only [pairTrapezoids, List.tail_cons, List.zip_cons_cons,
      List.map_cons, List.sum_cons]

theorem totalYield_eq_formula (l : List TestRow) (h : l ≠ []) :
    totalYield l =
      l.headI.daysInMilk * l.headI.milkingYield + pairTrapezoids l
        + (306 - (l.getLastD default).daysInMilk)
          * (l.getLastD default).milkingYield := by
  cases l with
  | nil => exact absurd rfl h
  | cons r rest =>
    simp only [totalYield, trapezoidSum_eq_pairTrapezoids, List.headI,
      List.getLastD_cons]

theorem mem_uniqueIdsAux (rows : List TestRow) :
    ∀ (seen : List ℕ) (g : ℕ),
      g ∈ uniqueIdsAux seen rows ↔ g ∈ rows.map TestRow.testId ∧ g ∉ seen := by
  induction rows with
  | nil => intro seen g; simp [uniqueIdsAux]
  | cons r rest ih =>
    intro seen g
    by_cases h : r.testId ∈ seen
    · rw [uniqueIdsAux, if_pos h, ih]
      simp only [List.map_cons, List.mem_cons]
      constructor
      · rintro ⟨hg, hns⟩
        exact ⟨Or.inr hg, hns⟩
      · rintro ⟨hg | hg, hns⟩
        · exact absurd (hg ▸ h) hns
        · exact ⟨hg, hns⟩
    · rw [uniqueIdsAux, if_neg h]
      constructor
      · intro hmem
        rcases List.mem_cons.mp hmem with rfl | hmem
        · exact ⟨by simp, h⟩
        · obtain ⟨hg, hns⟩ := (ih _ g).mp hmem
          refine ⟨?_, fun hs => hns (List.mem_cons_of_mem _ hs)⟩
          rw [List.map_cons]
          exact List.mem_cons_of_mem _ hg
      · rintro ⟨hmem, hns⟩
        rw [List.map_cons] at hmem
        rcases List.mem_cons.mp hmem with rfl | hg
        · exact List.mem_cons_self _ _
        · by_cases hgr : g = r.testId
          · exact hgr ▸ List.mem_cons_self _ _
          · exact List.mem_cons_of_mem _ ((ih _ g).mpr
              ⟨hg, fun hc => (List.mem_cons.mp hc).elim hgr hns⟩)

theorem mem_uniqueIds (rows : List TestRow) (g : ℕ) :
    g ∈ uniqueIds rows ↔ g ∈ rows.map TestRow.testId := by
  rw [uniqueIds, mem_uniqueIdsAux]
  simp

theorem mem_test_interval_method (rows : List TestRow) (g : ℕ) (v : ℚ) :
    (g, v) ∈ test_interval_method rows ↔
      g ∈ uniqueIds (filter305 rows) ∧
      2 ≤ (sortByDay (groupRows (filter305 rows) g)).length ∧
      v = totalYield (sortByDay (groupRows (filter305 rows) g)) := by
  unfold test_interval_method
  rw [List.mem_filterMap]
  constructor
  · rintro ⟨a, ha, hfa⟩
    by_cases h : (sortByDay (groupRows (filter305 rows) a)).length < 2
    · simp only [if_pos h] at hfa
      exact Option.noConfusion hfa
    · simp only [if_neg h, Option.some.injEq, Prod.mk.injEq] at hfa
      obtain ⟨rfl, rfl⟩ := hfa
      exact ⟨ha, Nat.le_of_not_lt h, rfl⟩
  · rintro ⟨hg, hlen, rfl⟩
    exact ⟨g, hg, by simp only [if_neg (Nat.not_lt.mpr hlen)]⟩

theorem sortByDay_perm (l : List TestRow) : (sortByDay l).Perm l :=
  List.perm_insertionSort rowLE l

theorem sortByDay_sorted (l : List TestRow) : (sortByDay l).Sorted rowLE :=
  List.sorted_insertionSort rowLE l

theorem sortByDay_length (l : List TestRow) :
    (sortByDay l).length = l.length :=
  (sortByDay_perm l).length_eq

/-- Two lists of records that are permutations of one another, both sorted
by day, with no repeated day, are equal. This is the `Nodup` hypothesis
that makes the internal sort of `test_interval_method` canonical; with
tied days the sorted order (and hence the result) can depend on the
input order. -/
theorem eq_of_perm_sorted_nodupDays :
    ∀ {l₁ l₂ : List TestRow}, l₁.Perm l₂ → l₁.Sorted rowLE →
      l₂.Sorted rowLE → (l₁.map TestRow.daysInMilk).Nodup → l₁ = l₂ := by
  intro l₁
  induction l₁ with
  | nil =>
    intro l₂ hp _ _ _
    exact hp.nil_eq
  | cons a t₁ ih =>
    intro l₂ hp hs₁ hs₂ hnd
    cases l₂ with
    | nil => exact absurd hp.symm.nil_eq (by simp)
    | cons b t₂ =>
      have hab : a = b := by
        have ha2 : a ∈ b :: t₂ := hp.subset (List.mem_cons_self a t₁)
        rcases List.mem_cons.mp ha2 with h | ha2
        · exact h
        · have hb1 : b ∈ a :: t₁ := hp.symm.subset (List.mem_cons_self b t₂)
          rcases List.mem_cons.mp hb1 with h | hb1
          · exact h.symm
          · have h₁ : rowLE a b := (List.sorted_cons.mp hs₁).1 b hb1
            have h₂ : rowLE b a := (List.sorted_cons.mp hs₂).1 a ha2
            have hd : a.daysInMilk = b.daysInMilk := le_antisymm h₁ h₂
            have hnd2 := hnd
            rw [List.map_cons, List.nodup_cons] at hnd2
            exact absurd (hd ▸ List.mem_map_of_mem TestRow.daysInMilk hb1)
              hnd2.1
      subst hab
      have ht := hp.cons_inv
      have hnd2 := hnd
      rw [List.map_cons, List.nodup_cons] at hnd2
      have htl := ih ht (List.sorted_cons.mp hs₁).2 (List.sorted_cons.mp hs₂).2
        hnd2.2
      rw [htl]

/-! ## Claim C1 -/

/-- C1: for every input table and every lactation group that, after
dropping rows with day > 305 and sorting by day ascending, has at least
2 rows, `test_interval_method` returns for that group's identifier the
total `day1*yield1` plus the sum over consecutive sorted pairs of
`(day2 - day1)*(yield1 + yield2)/2` plus `(306 - day_last)*yield_last`;
in particular on the two points (day 10, yield 30), (day 40, yield 25)
it returns 7775. -/
theorem test_interval_method_total_formula :
    (∀ (rows : List TestRow) (g : ℕ),
      g ∈ uniqueIds (filter305 rows) →
      2 ≤ (sortByDay (groupRows (filter305 rows) g)).length →
      (g, (sortByDay (groupRows (filter305 rows) g)).headI.daysInMilk
            * (sortByDay (groupRows (filter305 rows) g)).headI.milkingYield
          + pairTrapezoids (sortByDay (groupRows (filter305 rows) g))
          + (306 - ((sortByDay (groupRows (filter305 rows) g)).getLastD
                default).daysInMilk)
            * ((sortByDay (groupRows (filter305 rows) g)).getLastD
                default).milkingYield)
        ∈ test_interval_method rows) ∧
    test_interval_method [⟨1, 10, 30⟩, ⟨1, 40, 25⟩] = [(1, 7775)] := by
  constructor
  · intro rows g hg hlen
    rw [mem_test_interval_method]
    refine ⟨hg, hlen, ?_⟩
    have hne : sortByDay (groupRows (filter305 rows) g) ≠ [] := by
      intro h0
      rw [h0] at hlen
      simp at hlen
    rw [totalYield_eq_formula _ hne]
  · norm_num [test_interval_method, filter305, uniqueIds, uniqueIdsAux,
      groupRows, sortByDay, totalYield, trapezoidSum, List.insertionSort,
      List.orderedInsert, List.filter, List.filterMap, rowLE]

theorem test_interval_method_total_formula_witness :
    1 ∈ uniqueIds (filter305 [⟨1, 10, 30⟩, ⟨1, 40, 25⟩]) ∧
    2 ≤ (sortByDay (groupRows (filter305 [⟨1, 10, 30⟩, ⟨1, 40, 25⟩]) 1)).length ∧
    (1, (sortByDay (groupRows (filter305 [⟨1, 10, 30⟩, ⟨1, 40, 25⟩]) 1)).headI.daysInMilk
          * (sortByDay (groupRows (filter305 [⟨1, 10, 30⟩, ⟨1, 40, 25⟩]) 1)).headI.milkingYield
        + pairTrapezoids (sortByDay (groupRows (filter305 [⟨1, 10, 30⟩, ⟨1, 40, 25⟩]) 1))
        + (306 - ((sortByDay (groupRows (filter305 [⟨1, 10, 30⟩, ⟨1, 40, 25⟩]) 1)).getLastD
              default).daysInMilk)
          * ((sortByDay (groupRows (filter305 [⟨1, 10, 30⟩, ⟨1, 40, 25⟩]) 1)).getLastD
              default).milkingYield)
      ∈ test_interval_method [⟨1, 10, 30⟩, ⟨1, 40, 25⟩] :=
  ⟨by decide, by decide,
    test_interval_method_total_formula.1 [⟨1, 10, 30⟩, ⟨1, 40, 25⟩] 1
      (by decide) (by decide)⟩

/-! ## Claim C8 -/

/-- C8 counterexample: the result of `test_interval_method` is not
invariant under permutation of the input rows when a lactation has two
records on the same day: the internal sort only orders by day, so the
tied rows keep their input order, and the start contribution
`day1*yield1` (and the trapezoid next to it) changes. -/
theorem test_interval_method_row_order_counterexample :
    List.Perm [(⟨1, 10, 30⟩ : TestRow), ⟨1, 10, 5⟩, ⟨1, 40, 25⟩]
      [⟨1, 10, 5⟩, ⟨1, 10, 30⟩, ⟨1, 40, 25⟩] ∧
    test_interval_method [⟨1, 10, 30⟩, ⟨1, 10, 5⟩, ⟨1, 40, 25⟩] = [(1, 7400)] ∧
    test_interval_method [⟨1, 10, 5⟩, ⟨1, 10, 30⟩, ⟨1, 40, 25⟩] = [(1, 7525)] ∧
    (7400 : ℚ) ≠ 7525 := by
  refine ⟨by decide, ?_, ?_, by norm_num⟩
  · norm_num [test_interval_method, filter305, uniqueIds, uniqueIdsAux,
      groupRows, sortByDay, totalYield, trapezoidSum, List.insertionSort,
      List.orderedInsert, List.filter, List.filterMap, rowLE]
  · norm_num [test_interval_method, filter305, uniqueIds, uniqueIdsAux,
      groupRows, sortByDay, totalYield, trapezoidSum, List.insertionSort,
      List.orderedInsert, List.filter, List.filterMap, rowLE]

/-- C8 amended: for a lactation group whose (day ≤ 305) records all have
distinct days, the per-identifier result of `test_interval_method` is
invariant under permutation of the input rows. -/
theorem test_interval_method_perm_invariant (l₁ l₂ : List TestRow)
    (hp : l₁.Perm l₂) (g : ℕ)
    (hnd : ((groupRows (filter305 l₁) g).map TestRow.daysInMilk).Nodup)
    (v : ℚ) :
    (g, v) ∈ test_interval_method l₁ ↔ (g, v) ∈ test_interval_method l₂ := by
  have hdf : (filter305 l₁).Perm (filter305 l₂) := hp.filter _
  have hgr : (groupRows (filter305 l₁) g).Perm (groupRows (filter305 l₂) g) :=
    hdf.filter _
  have hs : sortByDay (groupRows (filter305 l₁) g)
      = sortByDay (groupRows (filter305 l₂) g) := by
    apply eq_of_perm_sorted_nodupDays
    · exact (sortByDay_perm _).trans (hgr.trans (sortByDay_perm _).symm)
    · exact sortByDay_sorted _
    · exact sortByDay_sorted _
    · exact (((sortByDay_perm (groupRows (filter305 l₁) g)).map
        TestRow.daysInMilk).nodup_iff).mpr hnd
  have hid : g ∈ uniqueIds (filter305 l₁) ↔ g ∈ uniqueIds (filter305 l₂) := by
    rw [mem_uniqueIds, mem_uniqueIds]
    exact (hdf.map _).mem_iff
  rw [mem_test_interval_method, mem_test_interval_method, hs, hid]

theorem test_interval_method_perm_invariant_witness :
    (1, 7775) ∈ test_interval_method [⟨1, 10, 30⟩, ⟨1, 40, 25⟩] ↔
    (1, 7775) ∈ test_interval_method [⟨1, 40, 25⟩, ⟨1, 10, 30⟩] :=
  test_interval_method_perm_invariant _ _ (by decide) 1 (by decide) 7775

/-! ## Claim C6 -/

/-- C6: the normalizer raises `LengthMismatch` when the day and yield
arrays differ in length; otherwise (with valid categorical options) it
drops exactly the index-aligned pairs in which either value is
non-finite, raises `InsufficientData` when fewer than 2 valid pairs
remain, and on success returns the cleaned pairs unchanged and in
order. -/
theorem validate_inputs_cleaning (dim milk : List PyFloat)
    (model fitting breed : Option String) (parity : Option ℤ)
    (continent pm : Option String) (ll : Option LactLenArg)
    (mu : String) (priors : Option PriorsArg) :
    (dim.length ≠ milk.length →
      validate_and_prepare_inputs dim milk model fitting breed parity
        continent pm ll mu priors = .error .lengthMismatch) ∧
    (dim.length = milk.length →
      (checkFitting fitting).isOk = true →
      (checkBreed breed).isOk = true →
      (checkContinent continent).isOk = true →
      (cleanPairs dim milk).length < 2 →
      validate_and_prepare_inputs dim milk model fitting breed parity
        continent pm ll mu priors = .error .insufficientData) ∧
    (∀ r, validate_and_prepare_inputs dim milk model fitting breed parity
        continent pm ll mu priors = .ok r →
      r.dim = (cleanPairs dim milk).map Prod.fst ∧
      r.milkrecordings = (cleanPairs dim milk).map Prod.snd ∧
      2 ≤ (cleanPairs dim milk).length) := by
  refine ⟨?_, ?_, ?_⟩
  · intro h
    rw [validate_and_prepare_inputs, if_pos h]
  · intro hlen hf hb hc hlt
    rw [validate_and_prepare_inputs, if_neg (by simp [hlen])]
    cases hcf : checkFitting fitting with
    | error e => rw [hcf] at hf; simp [Except.isOk, Except.toBool] at hf
    | ok f =>
      cases hcb : checkBreed breed with
      | error e => rw [hcb] at hb; simp [Except.isOk, Except.toBool] at hb
      | ok b =>
        cases hcc : checkContinent continent with
        | error e => rw [hcc] at hc; simp [Except.isOk, Except.toBool] at hc
        | ok c => simp [hlt]
  · intro r hr
    unfold validate_and_prepare_inputs at hr
    by_cases hlen : dim.length ≠ milk.length
    · rw [if_pos hlen] at hr
      exact Except.noConfusion hr
    · rw [if_neg hlen] at hr
      cases hcf : checkFitting fitting with
      | error e => simp only [hcf] at hr; exact Except.noConfusion hr
      | ok f =>
        simp only [hcf] at hr
        cases hcb : checkBreed breed with
        | error e => simp only [hcb] at hr; exact Except.noConfusion hr
        | ok b =>
          simp only [hcb] at hr
          cases hcc : checkContinent continent with
          | error e => simp only [hcc] at hr; exact Except.noConfusion hr
          | ok c =>
            simp only [hcc] at hr
            by_cases hlt : (cleanPairs dim milk).length < 2
            · simp only [if_pos hlt] at hr
              exact Except.noConfusion hr
            · simp only [if_neg hlt] at hr
              cases hcp : checkPersistencyMethod pm with
              | error e => simp only [hcp] at hr; exact Except.noConfusion hr
              | ok p =>
                simp only [hcp] at hr
                cases hcl : checkLactationLength ll with
                | error e => simp only [hcl] at hr; exact Except.noConfusion hr
                | ok l =>
                  simp only [hcl] at hr
                  by_cases hmu : ¬ (mu = "kg" ∨ mu = "lb")
                  · simp only [if_pos hmu] at hr
                    exact Except.noConfusion hr
                  · simp only [if_neg hmu] at hr
                    cases hcpr : checkCustomPriors priors with
                    | error e => simp only [hcpr] at hr; exact Except.noConfusion hr
                    | ok pr =>
                      simp only [hcpr, Except.ok.injEq] at hr
                      subst hr
                      exact ⟨rfl, rfl, by omega⟩

theorem validate_inputs_cleaning_witness :
    (validate_and_prepare_inputs [.num 1] [] (some "wood")
        (some "frequentist") (some "H") (some 3) (some "USA")
        (some "derived") (some (.int 305)) "kg" none
      = .error .lengthMismatch) ∧
    (validate_and_prepare_inputs [.num 1, .nan] [.num 10, .num 20]
        (some "wood") (some "frequentist") (some "H") (some 3) (some "USA")
        (some "derived") (some (.int 305)) "kg" none
      = .error .insufficientData) ∧
    (({ dim := [1, 3], milkrecordings := [10, 30], model := some "wood",
        fitting := some "frequentist", breed := some "H", parity := some 3,
        continent := some "USA", persistency_method := some "derived",
        lactation_length := some (.int 305), milk_unit := "kg",
        custom_priors := none } : PreparedInputs).dim
      = (cleanPairs [.num 1, .nan, .num 3] [.num 10, .num 20, .num 30]).map
          Prod.fst ∧
     ({ dim := [1, 3], milkrecordings := [10, 30], model := some "wood",
        fitting := some "frequentist", breed := some "H", parity := some 3,
        continent := some "USA", persistency_method := some "derived",
        lactation_length := some (.int 305), milk_unit := "kg",
        custom_priors := none } : PreparedInputs).milkrecordings
      = (cleanPairs [.num 1, .nan, .num 3] [.num 10, .num 20, .num 30]).map
          Prod.snd ∧
     2 ≤ (cleanPairs [.num 1, .nan, .num 3] [.num 10, .num 20, .num 30]).length) :=
  ⟨(validate_inputs_cleaning [.num 1] [] (some "wood") (some "frequentist")
      (some "H") (some 3) (some "USA") (some "derived") (some (.int 305))
      "kg" none).1 (by decide),
   (validate_inputs_cleaning [.num 1, .nan] [.num 10, .num 20] (some "wood")
      (some "frequentist") (some "H") (some 3) (some "USA") (some "derived")
      (some (.int 305)) "kg" none).2.1 (by decide) (by decide) (by decide)
      (by decide) (by decide),
   (validate_inputs_cleaning [.num 1, .nan, .num 3] [.num 10, .num 20, .num 30]
      (some "wood") (some "frequentist") (some "H") (some 3) (some "USA")
      (some "derived") (some (.int 305)) "kg" none).2.2 _ (by decide)⟩

/-! ## Claim C10 -/

/-- C10 counterexample: the normalizer accepts the negative lactation
length -5 (the source applies `int(...)` with no positivity check), so
"accepts only a positive integer, \"max\", or omitted" is false. -/
theorem lactation_length_negative_accepted :
    (validate_and_prepare_inputs [.num 1, .num 2] [.num 10, .num 20]
      (some "wood") (some "frequentist") (some "H") (some 3) (some "USA")
      (some "derived") (some (.int (-5))) "kg" none).isOk = true := by decide

/-- Under all the other checks passing, the success of
`validate_and_prepare_inputs` is exactly the success of the
lactation-length normalization step. -/
theorem validate_isOk_eq_checkLactationLength (dim milk : List PyFloat)
    (model fitting breed : Option String) (parity : Option ℤ)
    (continent pm : Option String) (ll : Option LactLenArg)
    (mu : String) (priors : Option PriorsArg)
    (hlen : dim.length = milk.length)
    (hf : (checkFitting fitting).isOk = true)
    (hb : (checkBreed breed).isOk = true)
    (hc : (checkContinent continent).isOk = true)
    (hn : 2 ≤ (cleanPairs dim milk).length)
    (hpm : (checkPersistencyMethod pm).isOk = true)
    (hmu : mu = "kg" ∨ mu = "lb")
    (hpr : (checkCustomPriors priors).isOk = true) :
    (validate_and_prepare_inputs dim milk model fitting breed parity
      continent pm ll mu priors).isOk = (checkLactationLength ll).isOk := by
  rw [validate_and_prepare_inputs, if_neg (by simp [hlen])]
  cases hcf : checkFitting fitting with
  | error e => rw [hcf] at hf; simp [Except.isOk, Except.toBool] at hf
  | ok f =>
    cases hcb : checkBreed breed with
    | error e => rw [hcb] at hb; simp [Except.isOk, Except.toBool] at hb
    | ok b =>
      cases hcc : checkContinent continent with
      | error e => rw [hcc] at hc; simp [Except.isOk, Except.toBool] at hc
      | ok c =>
        simp only [if_neg (Nat.not_lt.mpr hn)]
        cases hcp : checkPersistencyMethod pm with
        | error e => rw [hcp] at hpm; simp [Except.isOk, Except.toBool] at hpm
        | ok p =>
          cases hcl : checkLactationLength ll with
          | error e => rfl
          | ok l =>
            simp only [if_neg (by simp [hmu] : ¬¬(mu = "kg" ∨ mu = "lb"))]
            cases hcpr : checkCustomPriors priors with
            | error e => rw [hcpr] at hpr; simp [Except.isOk, Except.toBool] at hpr
            | ok pr => rfl

/-- C10 amended: with valid day/yield data and valid other options, the
normalizer accepts any integer lactation length (the source applies
`int(...)` without a positivity check), accepts an omitted lactation
length, and accepts a string lactation length exactly when it is
(case-insensitively) "max"; any other string is rejected. -/
theorem lactation_length_normalization (dim milk : List PyFloat)
    (model fitting breed : Option String) (parity : Option ℤ)
    (continent pm : Option String) (mu : String) (priors : Option PriorsArg)
    (hlen : dim.length = milk.length)
    (hf : (checkFitting fitting).isOk = true)
    (hb : (checkBreed breed).isOk = true)
    (hc : (checkContinent continent).isOk = true)
    (hn : 2 ≤ (cleanPairs dim milk).length)
    (hpm : (checkPersistencyMethod pm).isOk = true)
    (hmu : mu = "kg" ∨ mu = "lb")
    (hpr : (checkCustomPriors priors).isOk = true) :
    (∀ n : ℤ, (validate_and_prepare_inputs dim milk model fitting breed parity
      continent pm (some (.int n)) mu priors).isOk = true) ∧
    ((validate_and_prepare_inputs dim milk model fitting breed parity
      continent pm none mu priors).isOk = true) ∧
    (∀ s : String, (validate_and_prepare_inputs dim milk model fitting breed
        parity continent pm (some (.str s)) mu priors).isOk = true ↔
      pyLower s = "max") := by
  refine ⟨?_, ?_, ?_⟩
  · intro n
    rw [validate_isOk_eq_checkLactationLength dim milk model fitting breed
      parity continent pm _ mu priors hlen hf hb hc hn hpm hmu hpr]
    rfl
  · rw [validate_isOk_eq_checkLactationLength dim milk model fitting breed
      parity continent pm _ mu priors hlen hf hb hc hn hpm hmu hpr]
    rfl
  · intro s
    rw [validate_isOk_eq_checkLactationLength dim milk model fitting breed
      parity continent pm _ mu priors hlen hf hb hc hn hpm hmu hpr]
    rw [checkLactationLength]
    by_cases h : pyLower s = "max"
    · simp [h, Except.isOk, Except.toBool]
    · simp [h, Except.isOk, Except.toBool]

theorem lactation_length_normalization_witness :
    (validate_and_prepare_inputs [.num 1, .num 2] [.num 10, .num 20]
      (some "wood") (some "frequentist") (some "H") (some 3) (some "USA")
      (some "derived") (some (.int 7)) "kg" none).isOk = true ∧
    ((validate_and_prepare_inputs [.num 1, .num 2] [.num 10, .num 20]
      (some "wood") (some "frequentist") (some "H") (some 3) (some "USA")
      (some "derived") (some (.str "July")) "kg" none).isOk = true ↔
      pyLower "July" = "max") :=
  ⟨(lactation_length_normalization [.num 1, .num 2] [.num 10, .num 20]
      (some "wood") (some "frequentist") (some "H") (some 3) (some "USA")
      (some "derived") "kg" none (by decide) (by decide) (by decide)
      (by decide) (by decide) (by decide) (by decide) (by decide)).1 7,
   (lactation_length_normalization [.num 1, .num 2] [.num 10, .num 20]
      (some "wood") (some "frequentist") (some "H") (some 3) (some "USA")
      (some "derived") "kg" none (by decide) (by decide) (by decide)
      (by decide) (by decide) (by decide) (by decide) (by decide)).2.2 "July"⟩

/-- A concrete instance of the external numeric values, used to
evaluate the dispatch on concrete inputs. -/
def sampleOracles : Oracles :=
  ⟨[1, 1, 1, 1, 1], fun _ => some 42, fun _ => 0, 0, [1, 1, 1, 1],
    fun _ => 0, 0, 0⟩

/-! ## Claim C5 -/

/-- C5: with inputs that pass `validate_and_prepare_inputs`,
`calculate_characteristic` raises `UnsupportedModel` when the
(normalized) model is outside the five supported ones; with a supported
model it raises `UnknownCharacteristic` when the characteristic name is
outside the four recognized ones; with a supported model, a recognized
characteristic and Bayesian fitting it raises `MissingApiKey` when the
model is milkbot and no key is given, and `UnsupportedBayesianModel`
when the model is not milkbot. -/
theorem calculate_characteristic_errors (O : Oracles)
    (dim milk : List PyFloat) (model : String)
    (characteristic : Option String) (fitting : String) (key : Option String)
    (parity : ℤ) (breed : String) (continent : String)
    (priors : Option PriorsArg) (mu : String) (pm : String)
    (ll : Option LactLenArg) (inputs : PreparedInputs)
    (hv : validate_and_prepare_inputs dim milk (some model) (some fitting)
      (some breed) (some parity) (some continent) (some pm) ll mu priors
      = .ok inputs) :
    (optMem inputs.model supported_models = false →
      calculate_characteristic O dim milk model characteristic fitting key
        parity breed continent priors mu pm ll = .error .unsupportedModel) ∧
    (optMem inputs.model supported_models = true →
      (∀ c, characteristic = some c → characteristic_options.contains c = false) →
      calculate_characteristic O dim milk model characteristic fitting key
        parity breed continent priors mu pm ll
        = .error .unknownCharacteristic) ∧
    (∀ c, characteristic = some c →
      characteristic_options.contains c = true →
      inputs.model = some "milkbot" →
      inputs.fitting = some "bayesian" →
      key = none →
      calculate_characteristic O dim milk model characteristic fitting key
        parity breed continent priors mu pm ll = .error .missingApiKey) ∧
    (∀ c, characteristic = some c →
      characteristic_options.contains c = true →
      optMem inputs.model supported_models = true →
      inputs.model ≠ some "milkbot" →
      inputs.fitting = some "bayesian" →
      calculate_characteristic O dim milk model characteristic fitting key
        parity breed continent priors mu pm ll
        = .error .unsupportedBayesianModel) := by
  refine ⟨?_, ?_, ?_, ?_⟩
  · intro hm
    simp only [calculate_characteristic, hv]
    rw [if_pos (by simp [hm])]
  · intro hm hc
    simp only [calculate_characteristic, hv]
    rw [if_neg (by simp [hm])]
    cases characteristic with
    | none => rfl
    | some c =>
      have hcc : characteristic_options.contains c = false := hc c rfl
      simp only [hcc]
      rw [if_pos (by decide)]
  · intro c hcc hc hm hf hk
    subst hcc
    subst hk
    simp only [calculate_characteristic, hv]
    rw [if_neg (by rw [hm]; decide), if_neg (fun h => h hc),
      if_neg (by simp [hf]), if_pos hm]
  · intro c hcc hc hm hmb hf
    subst hcc
    simp only [calculate_characteristic, hv]
    rw [if_neg (by simp [hm]), if_neg (fun h => h hc),
      if_neg (by simp [hf]), if_neg hmb]

theorem calculate_characteristic_errors_witness :
    (calculate_characteristic sampleOracles [.num 1, .num 2]
      [.num 10, .num 20] "brody" (some "peak_yield") "frequentist" none 3
      "H" "USA" none "kg" "derived" (some (.int 305))
      = .error .unsupportedModel) ∧
    (calculate_characteristic sampleOracles [.num 1, .num 2]
      [.num 10, .num 20] "wood" (some "nonsense") "frequentist" none 3 "H"
      "USA" none "kg" "derived" (some (.int 305))
      = .error .unknownCharacteristic) ∧
    (calculate_characteristic sampleOracles [.num 1, .num 2]
      [.num 10, .num 20] "milkbot" (some "peak_yield") "bayesian" none 3
      "H" "USA" none "kg" "derived" (some (.int 305))
      = .error .missingApiKey) ∧
    (calculate_characteristic sampleOracles [.num 1, .num 2]
      [.num 10, .num 20] "wood" (some "peak_yield") "bayesian" (some "k") 3
      "H" "USA" none "kg" "derived" (some (.int 305))
      = .error .unsupportedBayesianModel) :=
  ⟨(calculate_characteristic_errors sampleOracles [.num 1, .num 2]
      [.num 10, .num 20] "brody" (some "peak_yield") "frequentist" none 3
      "H" "USA" none "kg" "derived" (some (.int 305))
      { dim := [1, 2], milkrecordings := [10, 20], model := some "brody",
        fitting := some "frequentist", breed := some "H", parity := some 3,
        continent := some "USA", persistency_method := some "derived",
        lactation_length := some (.int 305), milk_unit := "kg",
        custom_priors := none } (by decide)).1 (by decide),
   (calculate_characteristic_errors sampleOracles [.num 1, .num 2]
      [.num 10, .num 20] "wood" (some "nonsense") "frequentist" none 3 "H"
      "USA" none "kg" "derived" (some (.int 305))
      { dim := [1, 2], milkrecordings := [10, 20], model := some "wood",
        fitting := some "frequentist", breed := some "H", parity := some 3,
        continent := some "USA", persistency_method := some "derived",
        lactation_length := some (.int 305), milk_unit := "kg",
        custom_priors := none } (by decide)).2.1 (by decide)
      (fun c hc => by cases hc; decide),
   (calculate_characteristic_errors sampleOracles [.num 1, .num 2]
      [.num 10, .num 20] "milkbot" (some "peak_yield") "bayesian" none 3
      "H" "USA" none "kg" "derived" (some (.int 305))
      { dim := [1, 2], milkrecordings := [10, 20], model := some "milkbot",
        fitting := some "bayesian", breed := some "H", parity := some 3,
        continent := some "USA", persistency_method := some "derived",
        lactation_length := some (.int 305), milk_unit := "kg",
        custom_priors := none } (by decide)).2.2.1 "peak_yield" rfl
      (by decide) (by decide) (by decide) rfl,
   (calculate_characteristic_errors sampleOracles [.num 1, .num 2]
      [.num 10, .num 20] "wood" (some "peak_yield") "bayesian" (some "k") 3
      "H" "USA" none "kg" "derived" (some (.int 305))
      { dim := [1, 2], milkrecordings := [10, 20], model := some "wood",
        fitting := some "bayesian", breed := some "H", parity := some 3,
        continent := some "USA", persistency_method := some "derived",
        lactation_length := some (.int 305), milk_unit := "kg",
        custom_priors := none } (by decide)).2.2.2 "peak_yield" rfl
      (by decide) (by decide) (by decide) (by decide)⟩

/-! ## Claim C2 -/

/-- C2 counterexample: with the `characteristic` argument omitted,
`calculate_characteristic` does not return a dictionary of all four
characteristics: the Python parameter defaults to
`"cumulative_milk_yield"` and a single float is returned (here the
symbolic evaluator value 42). -/
theorem calculate_characteristic_default_counterexample :
    calculate_characteristic sampleOracles [.num 1, .num 2]
      [.num 10, .num 20] "wood" (some "cumulative_milk_yield") "frequentist"
      none 3 "H" "USA" none "kg" "derived" (some (.int 305))
      = .ok (.val 42) ∧
    returnsDict (calculate_characteristic sampleOracles [.num 1, .num 2]
      [.num 10, .num 20] "wood" (some "cumulative_milk_yield") "frequentist"
      none 3 "H" "USA" none "kg" "derived" (some (.int 305))) = false := by
  exact ⟨by decide, by decide⟩

/-- C2 amended: `calculate_characteristic` returns a single float for
every recognized characteristic name (under frequentist fitting with a
supported model and the default "derived" persistency method); with the
argument omitted it computes the default characteristic
`cumulative_milk_yield` — also a single float, never the dictionary of
all four (that dictionary is produced by
`lactation_curve_characteristic_function` when its own `characteristic`
argument is `None`, not by `calculate_characteristic`). -/
theorem calculate_characteristic_returns_float (O : Oracles)
    (dim milk : List PyFloat) (model : String) (c : String)
    (fitting : String) (key : Option String) (parity : ℤ) (breed : String)
    (continent : String) (priors : Option PriorsArg) (mu : String)
    (pm : String) (ll : Option LactLenArg) (inputs : PreparedInputs)
    (hv : validate_and_prepare_inputs dim milk (some model) (some fitting)
      (some breed) (some parity) (some continent) (some pm) ll mu priors
      = .ok inputs)
    (hm : optMem inputs.model supported_models = true)
    (hc : characteristic_options.contains c = true)
    (hf : inputs.fitting = some "frequentist")
    (hpm : inputs.persistency_method = some "derived") :
    returnsFloat (calculate_characteristic O dim milk model (some c) fitting
      key parity breed continent priors mu pm ll) = true := by
  simp only [calculate_characteristic, hv]
  rw [if_neg (by simp [hm]), if_neg (fun h => h hc), if_pos hf]
  by_cases hcp : c = "persistency"
  · rw [if_neg (by simp [hcp]), if_pos hpm]
    rfl
  · rw [if_pos hcp]
    cases O.symValue c with
    | none => rfl
    | some v =>
      by_cases ht : c = "time_to_peak" ∧ v ≤ 0
      · simp only [if_pos ht]
        rfl
      · simp only [if_neg ht]
        rfl

theorem calculate_characteristic_returns_float_witness :
    returnsFloat (calculate_characteristic sampleOracles [.num 1, .num 2]
      [.num 10, .num 20] "wood" (some "cumulative_milk_yield") "frequentist"
      none 3 "H" "USA" none "kg" "derived" (some (.int 305))) = true :=
  calculate_characteristic_returns_float sampleOracles [.num 1, .num 2]
    [.num 10, .num 20] "wood" "cumulative_milk_yield" "frequentist" none 3
    "H" "USA" none "kg" "derived" (some (.int 305))
    { dim := [1, 2], milkrecordings := [10, 20], model := some "wood",
      fitting := some "frequentist", breed := some "H", parity := some 3,
      continent := some "USA", persistency_method := some "derived",
      lactation_length := some (.int 305), milk_unit := "kg",
      custom_priors := none } (by decide) (by decide) (by decide)
    (by decide) (by decide)

/-! ## Claim C9 -/

/-- C9: the literature persistency formulas compute exactly their closed
forms: `persistency_wood b c = -(b+1)*ln c` for every `b` and every
`c > 0` (so `persistency_wood 2 (1/2) = -3*ln(1/2)`), and
`persistency_milkbot d = 0.693/d` for every `d ≠ 0` while
`persistency_milkbot 0` raises a division error. -/
theorem persistency_closed_forms :
    (∀ b c : ℝ, 0 < c → persistency_wood b c = -(b + 1) * Real.log c) ∧
    persistency_wood 2 (1 / 2) = -3 * Real.log (1 / 2) ∧
    (∀ d : ℚ, d ≠ 0 → persistency_milkbot d = .ok (693 / 1000 / d)) ∧
    persistency_milkbot 0 = .error .zeroDivisionError := by
  refine ⟨fun b c _ => rfl, ?_, fun d hd => ?_, by decide⟩
  · show -(2 + 1) * Real.log (1 / 2) = -3 * Real.log (1 / 2)
    norm_num
  · rw [persistency_milkbot, pyDiv, if_neg hd]

theorem persistency_closed_forms_witness :
    persistency_wood 2 (1 / 2) = -(2 + 1) * Real.log (1 / 2) ∧
    persistency_milkbot 2 = .ok (693 / 1000 / 2) :=
  ⟨persistency_closed_forms.1 2 (1 / 2) one_half_pos,
   persistency_closed_forms.2.2.1 2 two_ne_zero⟩

/-! ## Claim C7 -/

theorem t_range_eq (maxDim : ℕ) :
    t_range maxDim = List.range' 1 (max 305 maxDim) := by
  rw [t_range]
  by_cases hgt : maxDim > 305
  · rw [if_pos hgt, Nat.max_eq_right (le_of_lt hgt)]
  · rw [if_neg hgt, Nat.max_eq_left (Nat.le_of_not_lt hgt)]

/-- C7: under frequentist fitting with a supported model,
`fit_lactation_curve` returns a series of length
`max(305, maximum observed day)` whose entry for day `i` (1-based) is
the model function applied to day `i` with the fitted parameters. -/
theorem fit_curve_prediction_series (getParams : String → List ℝ)
    (model : String) (maxDim : ℕ) (ys : List ℝ)
    (hm : supported_models.contains model = true)
    (h : fit_lactation_curve getParams model maxDim = .ok ys) :
    ys.length = max 305 maxDim ∧
    ∀ i (hi : i < ys.length),
      ys.get ⟨i, hi⟩ = model_function model (getParams model) ((i : ℝ) + 1) := by
  rw [fit_lactation_curve, if_pos hm, t_range_eq] at h
  simp only [Except.ok.injEq] at h
  subst h
  constructor
  · rw [List.length_map, List.length_range']
  · intro i hi
    rw [List.get_map, List.get_eq_getElem, List.getElem_range']
    congr 1
    push_cast
    ring

theorem fit_curve_prediction_series_witness :
    ((t_range 2).map (fun t : ℕ =>
        model_function "wood" ((fun _ => [1, 1, 1]) "wood") (t : ℝ))).length
      = max 305 2 :=
  (fit_curve_prediction_series (fun _ => [1, 1, 1]) "wood" 2
    ((t_range 2).map (fun t : ℕ =>
      model_function "wood" ((fun _ => [1, 1, 1]) "wood") (t : ℝ)))
    (by decide)
    (by rw [fit_lactation_curve, if_pos (by decide)])).1

/-! ## Claim C3 -/

/-- C3: the Ali-Schaeffer expression in the characteristics module does
not have the claimed shape: its final term is `k * log((340/t)**2)`
(the log of a square) instead of `k * (log(...))**2` (the square of the
log, as in both fitting modules and the spec), and its `d` term takes
`log(t/340)` instead of `log(340/t)`. At `t = 85` with parameters
`(a,b,c,d,k) = (0,0,0,0,1)` the two differ: `log 16 ≠ (log 4)^2`. -/
theorem ali_schaeffer_char_expr_diverges :
    ali_schaeffer_char_expr 85 0 0 0 0 1 ≠ ali_schaeffer_model_340 85 0 0 0 0 1 := by
  have e1 : ali_schaeffer_char_expr 85 0 0 0 0 1 = Real.log ((4 : ℝ) ^ 2) := by
    rw [ali_schaeffer_char_expr]
    norm_num
  have e2 : ali_schaeffer_model_340 85 0 0 0 0 1 = (Real.log (4 : ℝ)) ^ 2 := by
    rw [ali_schaeffer_model_340]
    norm_num
  rw [e1, e2]
  have h16 : Real.log ((4 : ℝ) ^ 2) = 4 * Real.log 2 := by
    rw [show ((4 : ℝ) ^ 2) = 2 ^ 4 by norm_num, Real.log_pow]
    push_cast
    ring
  have h4l : Real.log (4 : ℝ) = 2 * Real.log 2 := by
    rw [show (4 : ℝ) = 2 ^ 2 by norm_num, Real.log_pow]
    push_cast
    ring
  rw [h16, h4l]
  intro h
  nlinarith [Real.log_two_gt_d9, Real.log_two_lt_d9]

/-! ## Claim C4 -/

/-- C4 counterexample: the symbolic derivation is not a pure function of
`(model, characteristic)`: for the Wood model the persistency
expression `(f(T) - f(tpeak))/(T - tpeak)` contains the
`lactation_length` value `T`, so deriving it with `lactation_length`
305 and with 100 gives different results already at parameters
`(a, b, c) = (1, 1, 1)` — caching it under the key
`(model, characteristic)` alone is unsound. -/
theorem wood_persistency_cache_counterexample :
    wood_characteristic_evaluator "persistency" 305 1 1 1
      ≠ wood_characteristic_evaluator "persistency" 100 1 1 1 := by
  have e305 : wood_characteristic_evaluator "persistency" 305 1 1 1
      = (305 * Real.exp (-305) - Real.exp (-1)) / 304 := by
    show wood_persistency_expr 305 1 1 1
      = (305 * Real.exp (-305) - Real.exp (-1)) / 304
    rw [wood_persistency_expr, wood_time_to_peak, wood_model, wood_model]
    norm_num [Real.rpow_natCast]
  have e100 : wood_characteristic_evaluator "persistency" 100 1 1 1
      = (100 * Real.exp (-100) - Real.exp (-1)) / 99 := by
    show wood_persistency_expr 100 1 1 1
      = (100 * Real.exp (-100) - Real.exp (-1)) / 99
    rw [wood_persistency_expr, wood_time_to_peak, wood_model, wood_model]
    norm_num [Real.rpow_natCast]
  rw [e305, e100]
  have h50 : (51 : ℝ) ≤ Real.exp 50 := by
    have := Real.add_one_le_exp (50 : ℝ)
    linarith
  have h100 : (2601 : ℝ) ≤ Real.exp 100 := by
    have hsplit : Real.exp (100 : ℝ) = Real.exp 50 * Real.exp 50 := by
      rw [← Real.exp_add]
      norm_num
    nlinarith [Real.exp_pos (50 : ℝ)]
  have hinv : Real.exp (-100 : ℝ) ≤ 1 / 2601 := by
    rw [Real.exp_neg, inv_eq_one_div]
    exact one_div_le_one_div_of_le (by norm_num) h100
  have hbound : (30400 : ℝ) * Real.exp (-100) ≤ 30400 * (1 / 2601) :=
    mul_le_mul_of_nonneg_left hinv (by norm_num)
  have hem1 : (0.36787944116 : ℝ) < Real.exp (-1) := Real.exp_neg_one_gt_d9
  have he305 : (0 : ℝ) < Real.exp (-305) := Real.exp_pos _
  have hlt : (100 * Real.exp (-100) - Real.exp (-1)) / 99
      < (305 * Real.exp (-305) - Real.exp (-1)) / 304 := by
    rw [div_lt_div_iff (by norm_num) (by norm_num)]
    nlinarith
  exact ne_of_gt hlt

/-- C4 amended: the symbolic derivation result is a pure function of
`(model, characteristic, lactation_length)`; for the characteristics
other than persistency (time_to_peak, peak_yield and the cumulative
yield, whose integration bound 305 is hard-coded) it does not depend on
`lactation_length`, so for those the cache key `(model,
characteristic)` is sound; the persistency expression depends on
`lactation_length`, so for it that cache key is not. -/
theorem wood_characteristic_lactation_length_independent (c : String)
    (hc : c ∈ ["time_to_peak", "peak_yield", "cumulative_milk_yield"])
    (T₁ T₂ a b c₂ : ℝ) :
    wood_characteristic_evaluator c T₁ a b c₂
      = wood_characteristic_evaluator c T₂ a b c₂ := by
  simp only [List.mem_cons, List.mem_singleton, List.not_mem_nil,
    or_false] at hc
  rcases hc with rfl | rfl | rfl <;> rfl

theorem wood_characteristic_lactation_length_independent_witness :
    wood_characteristic_evaluator "time_to_peak" 305 1 1 1
      = wood_characteristic_evaluator "time_to_peak" 100 1 1 1 :=
  wood_characteristic_lactation_length_independent "time_to_peak"
    (by decide) 305 100 1 1 1

end LactationCore
